import Mathlib

/-!
Verification development for the SubQuest round-advancement engine.

The definitions below are a shallow embedding of the TypeScript sources:
`src/types/index.ts` (data model), `src/utils/redisManager.ts`,
`src/utils/storyEngine.ts`, `src/handlers/voteCounter.ts`,
`src/handlers/settingsHandler.ts` and `src/handlers/schedulerHandler.ts`.
JavaScript objects used as ordered string-keyed maps are embedded as
association lists (preserving insertion order, which `Object.entries` /
`Object.keys` iteration relies on); `Date.now()` timestamps and millisecond
durations are embedded as `Int`; optional fields become `Option`;
functions that may `throw` return `Except String`.
-/

namespace SubQuest

/-- A choice edge of the story graph (`Choice` in types/index.ts). -/
structure Choice where
  id : String
  text : String
  nextNodeId : String
deriving Repr, DecidableEq

/-- A node of the story graph (`StoryNode` in types/index.ts).
`choices` and `isEnd` are optional in the source. -/
structure StoryNode where
  id : String
  title : String
  content : String
  imageUrl : Option String
  choices : Option (List Choice)
  isEnd : Option Bool
deriving Repr, DecidableEq

/-- The story graph (`Story` in types/index.ts); `nodes` is a string-keyed
object embedded as an insertion-ordered association list. -/
structure Story where
  title : String
  description : String
  startNodeId : String
  nodes : List (String × StoryNode)
deriving Repr, DecidableEq

/-- Lookup `story.nodes[id]`. -/
def Story.getNode (s : Story) (id : String) : Option StoryNode :=
  (s.nodes.find? (fun p => p.1 == id)).map (fun p => p.2)

/-- The mutable game state (`GameState` in types/index.ts). The optional
`testMode?: boolean` is embedded as a `Bool` (absent = `false`, matching
JavaScript truthiness of `undefined`). -/
structure GameState where
  currentNodeId : String
  roundNumber : Nat
  storyPath : List String
  isActive : Bool
  roundStartTime : Int
  roundDurationHours : Int
  testMode : Bool
deriving Repr, DecidableEq

/-- Application configuration (`AppConfig` in types/index.ts). -/
structure AppConfig where
  roundDurationHours : Int
  isGameActive : Bool
  subredditName : String
deriving Repr, DecidableEq

/-- Vote tracking data for one round (`VoteData` in types/index.ts);
`choices` maps choice ids to comment ids, insertion-ordered. -/
structure VoteData where
  choices : List (String × String)
  roundEndTime : Int
deriving Repr, DecidableEq

/-- Result of vote counting for one choice (`VoteResult` in types/index.ts). -/
structure VoteResult where
  choiceId : String
  commentId : String
  upvotes : Int
deriving Repr, DecidableEq

/-! ## Redis store (redisManager.ts)

The relevant Redis keys (`subquest:gamestate`, `subquest:story`,
`subquest:config`, `subquest:votes:roundN`) are embedded as one record. -/

/-- The persistent key-value store contents relevant to the core. -/
structure RedisStore where
  gameState : Option GameState
  storyData : Option Story
  config : Option AppConfig
  voteData : List (Nat × VoteData)
deriving Repr, DecidableEq

/-- `RedisManager.clearGameData`: deletes the game state and the vote data
for rounds `1..roundNumber` when a game state exists; story and config keys
are untouched. -/
def clearGameData (st : RedisStore) : RedisStore :=
  match st.gameState with
  | none => { st with gameState := none }
  | some g =>
      { st with
        gameState := none,
        voteData := st.voteData.filter
          (fun p => decide (¬ (1 ≤ p.1 ∧ p.1 ≤ g.roundNumber))) }

/-- `RedisManager.initializeNewGame`: clears game data then writes a fresh
active game state and configuration. -/
def initializeNewGame (st : RedisStore) (startNodeId subredditName : String)
    (roundDurationHours : Int) (testMode : Bool) (now : Int) : RedisStore :=
  let st := clearGameData st
  { st with
    gameState := some
      { currentNodeId := startNodeId
        roundNumber := 1
        storyPath := [startNodeId]
        isActive := true
        roundStartTime := now
        roundDurationHours := roundDurationHours
        testMode := testMode },
    config := some
      { roundDurationHours := roundDurationHours
        isGameActive := true
        subredditName := subredditName } }

/-- `RedisManager.completeGame`: if a game state exists, set `isActive` to
`false` (all other game-state fields are copied) and mark the configuration
inactive; if no game state exists, return without writing anything. -/
def completeGame (st : RedisStore) : RedisStore :=
  match st.gameState with
  | none => st
  | some g =>
      let st := { st with gameState := some { g with isActive := false } }
      match st.config with
      | none => st
      | some c => { st with config := some { c with isGameActive := false } }

/-! ## Story engine navigation (storyEngine.ts) -/

/-- `StoryEngine.getCurrentNode`: `Except.ok none` models the `null` returns
(no story loaded, no active game); a missing current node is a thrown error. -/
def getCurrentNode (story : Option Story) (gs : Option GameState) :
    Except String (Option StoryNode) :=
  match story with
  | none => Except.ok none
  | some st =>
      match gs with
      | none => Except.ok none
      | some g =>
          if ¬ g.isActive then Except.ok none
          else
            match st.getNode g.currentNodeId with
            | none => Except.error s!"Current node {g.currentNodeId} not found in story"
            | some n => Except.ok (some n)

/-- `StoryEngine.advanceStoryByChoice`: validates the choice against the
current node, then produces the updated game state (new current node,
incremented round number, new round start time, path extended unless the
target already ends the path). The returned state is what `setGameState`
persists. -/
def advanceStoryByChoice (story : Option Story) (gs : Option GameState)
    (choiceId : String) (now : Int) : Except String GameState :=
  match getCurrentNode story gs with
  | Except.error e => Except.error e
  | Except.ok none => Except.error "No current node found - cannot advance story"
  | Except.ok (some node) =>
      match node.choices with
      | none => Except.error s!"Current node {node.id} has no choices available"
      | some cs =>
          if cs.isEmpty then
            Except.error s!"Current node {node.id} has no choices available"
          else
            match cs.find? (fun c => c.id == choiceId) with
            | none => Except.error s!"Choice {choiceId} not found in current node {node.id}"
            | some selectedChoice =>
                match gs with
                | none => Except.error "No game state found - cannot advance story"
                | some g =>
                    let g1 : GameState :=
                      { g with
                        currentNodeId := selectedChoice.nextNodeId,
                        roundNumber := g.roundNumber + 1,
                        roundStartTime := now }
                    let g2 : GameState :=
                      if g1.storyPath.isEmpty ∨ g1.storyPath.getLast? ≠ some selectedChoice.nextNodeId
                      then { g1 with storyPath := g1.storyPath ++ [selectedChoice.nextNodeId] }
                      else g1
                    Except.ok g2

/-- Iterated advancement: one `advanceStoryByChoice` call per `(choiceId, now)`
pair, threading the persisted state. -/
def advanceMany (story : Story) (gs : GameState) :
    List (String × Int) → Except String GameState
  | [] => Except.ok gs
  | (cid, t) :: rest =>
      match advanceStoryByChoice (some story) (some gs) cid t with
      | Except.error e => Except.error e
      | Except.ok gs2 => advanceMany story gs2 rest

/-- `StoryEngine.navigateToNode`: set the current node and append it to the
story path unless it already ends the path. -/
def navigateToNode (story : Option Story) (gs : Option GameState)
    (nodeId : String) : Except String GameState :=
  match story with
  | none => Except.error "No story data found - cannot navigate"
  | some st =>
      match st.getNode nodeId with
      | none => Except.error s!"Target node {nodeId} not found in story"
      | some _ =>
          match gs with
          | none => Except.error "No game state found - cannot navigate"
          | some g =>
              let g1 : GameState := { g with currentNodeId := nodeId }
              let g2 : GameState :=
                if g1.storyPath.isEmpty ∨ g1.storyPath.getLast? ≠ some nodeId
                then { g1 with storyPath := g1.storyPath ++ [nodeId] }
                else g1
              Except.ok g2

/-- `StoryEngine.resetGame`: requires a loaded story (the in-memory one or the
stored one) and a configuration, then clears game data and reinitializes a new
game with the configured duration. The source passes no `testMode` argument,
so `initializeNewGame` uses its default `false`. -/
def resetGame (currentStory : Option Story) (st : RedisStore) (now : Int) :
    Except String RedisStore :=
  match currentStory <|> st.storyData with
  | none => Except.error "No story data found - cannot reset game"
  | some s =>
      match st.config with
      | none => Except.error "No configuration found - cannot reset game"
      | some cfg =>
          let st1 := clearGameData st
          Except.ok (initializeNewGame st1 s.startNodeId cfg.subredditName
            cfg.roundDurationHours false now)

/-- `StoryEngine.getTimeRemainingInRound`: milliseconds remaining in the
current round, 0 when no active game; the duration unit comes from the
state's `testMode` flag (minutes in test mode, hours otherwise). -/
def getTimeRemainingInRound (gs : Option GameState) (now : Int) : Int :=
  match gs with
  | none => 0
  | some g =>
      if ¬ g.isActive then 0
      else
        let roundDurationMs :=
          if g.testMode then g.roundDurationHours * 60 * 1000
          else g.roundDurationHours * 60 * 60 * 1000
        let elapsedMs := now - g.roundStartTime
        max 0 (roundDurationMs - elapsedMs)

/-! ## Story validation (storyEngine.ts)

`StoryEngine.loadStory` runs `validateStoryStructure` then
`validateStoryReferences`; each validator `throw`s at the first failing
check, so the embedding returns `Except String`. -/

/-- `StoryEngine.validateChoice`: structural checks of one choice; the source
throws at the first failure. On the typed embedding the JavaScript falsiness
checks (`!choice.id` etc.) become emptiness checks. -/
def validateChoiceStructure (nodeId : String) (i : Nat) (c : Choice) :
    Except String Unit :=
  if c.id = "" then Except.error s!"Node {nodeId} choice {i} must have a valid id string"
  else if c.text = "" then Except.error s!"Node {nodeId} choice {i} must have a valid text string"
  else if c.nextNodeId = "" then Except.error s!"Node {nodeId} choice {i} must have a valid nextNodeId string"
  else Except.ok ()

/-- `StoryEngine.validateStoryNode`: structural checks of one node, throwing
at the first failure (id mismatch, missing title/content, per-choice checks,
end/choices mutual exclusivity). -/
def validateStoryNodeStructure (node : StoryNode) (nodeId : String) :
    Except String Unit := do
  if node.id ≠ nodeId then
    throw s!"Node {nodeId} has mismatched ID: {node.id}"
  if node.title = "" then
    throw s!"Node {nodeId} must have a valid title string"
  if node.content = "" then
    throw s!"Node {nodeId} must have a valid content string"
  match node.choices with
  | none => pure ()
  | some cs => cs.enum.forM (fun p => validateChoiceStructure nodeId p.1 p.2)
  if node.isEnd = some true ∧ node.choices.getD [] ≠ [] then
    throw s!"Node {nodeId} is marked as end but has choices"
  if node.isEnd ≠ some true ∧ node.choices.getD [] = [] then
    throw s!"Node {nodeId} is not marked as end but has no choices"

/-- `StoryEngine.validateStoryStructure`: top-level field checks then each
node in turn; the first failing check throws, so later defects are never
reported. -/
def validateStoryStructure (s : Story) : Except String Unit := do
  if s.title = "" then
    throw "Story must have a valid title string"
  if s.description = "" then
    throw "Story must have a valid description string"
  if s.startNodeId = "" then
    throw "Story must have a valid startNodeId string"
  if s.nodes.isEmpty then
    throw "Story must contain at least one node"
  s.nodes.forM (fun p => validateStoryNodeStructure p.2 p.1)

/-- Total number of choice edges of a story; bounds the work of the
reachability traversal. -/
def storyEdgeCount (s : Story) : Nat :=
  (s.nodes.map (fun p => (p.2.choices.getD []).length)).sum

/-- One step of the depth-first traversal over choice edges used by both
`StoryEngine.validateStoryReferences` and
`SettingsHandler.findReachableNodes`. The JavaScript stack (push/pop at the
array end) is embedded with the stack top at the list head; `fuel` bounds the
iteration count (`1 + storyEdgeCount` pops always suffice, since every pushed
entry stems from the start node or from a choice of a node processed at most
once). -/
def reachAux (s : Story) : Nat → List String → List String → List String
  | 0, visited, _ => visited
  | _ + 1, visited, [] => visited
  | fuel + 1, visited, top :: rest =>
      if visited.contains top then reachAux s fuel visited rest
      else
        let visited := visited ++ [top]
        match s.getNode top with
        | none => reachAux s fuel visited rest
        | some n =>
            let pushes := (((n.choices.getD []).filter
              (fun c => ¬ visited.contains c.nextNodeId)).map
              (fun c => c.nextNodeId)).reverse
            reachAux s fuel visited (pushes ++ rest)

/-- `findReachableNodes`: all node ids reachable from `startNodeId` via
choice edges (the traversal shared by both validators). -/
def findReachableNodes (s : Story) : List String :=
  reachAux s (1 + storyEdgeCount s) [] [s.startNodeId]

/-- The first dangling choice reference in node order, if any
(`validateStoryReferences` throws on exactly this one). -/
def firstDanglingRef (s : Story) : Option (String × Choice) :=
  s.nodes.findSome? (fun p =>
    ((p.2.choices.getD []).find? (fun c => (s.getNode c.nextNodeId).isNone)).map
      (fun c => (p.1, c)))

/-- `StoryEngine.validateStoryReferences`: start-node existence, referential
integrity and end-node existence are fatal (first failure throws); unreached
node ids are only logged with `console.warn`, returned here as the second
component. -/
def validateStoryReferences (s : Story) : Except String Unit × List String :=
  if (s.getNode s.startNodeId) = none then
    (Except.error s!"Start node {s.startNodeId} not found in story nodes", [])
  else
    match firstDanglingRef s with
    | some (nodeId, c) =>
        (Except.error s!"Node {nodeId} choice {c.id} references non-existent node {c.nextNodeId}", [])
    | none =>
        let reachable := findReachableNodes s
        let unreachable := (s.nodes.map (fun p => p.1)).filter
          (fun id => ¬ reachable.contains id)
        if (s.nodes.filter (fun p => decide (p.2.isEnd = some true))).isEmpty then
          (Except.error "Story must contain at least one end node (isEnd: true)", unreachable)
        else
          (Except.ok (), unreachable)

/-- The validation pipeline of `StoryEngine.loadStory`: structure first, then
references; success yields the unreachable-node warnings. -/
def loadStoryValidate (s : Story) : Except String (List String) := do
  validateStoryStructure s
  match validateStoryReferences s with
  | (Except.error e, _) => throw e
  | (Except.ok (), w) => pure w

/-! ## Settings-side story validation (settingsHandler.ts)

`SettingsHandler.validateStoryJson` accumulates every failing check into an
`errors` list and sets `isValid := errors.isEmpty`; the embedding works on an
already-parsed, typed `Story` (the JSON-syntax branches of the source return
a single parse error and are outside the typed model). -/

/-- Result record of `SettingsHandler.validateStoryJson`. -/
structure StoryValidationResult where
  isValid : Bool
  errors : List String
  warnings : List String
deriving Repr, DecidableEq

/-- Error message for a node whose `id` field is missing or mismatched. -/
def nodeIdErr (nodeId : String) : String :=
  s!"Node {nodeId} must have matching id field"

/-- Error message for a node without a valid title. -/
def nodeTitleErr (nodeId : String) : String :=
  s!"Node {nodeId} must have a valid title"

/-- Error message for a node without valid content. -/
def nodeContentErr (nodeId : String) : String :=
  s!"Node {nodeId} must have valid content"

/-- Error message for a choice without a valid id. -/
def choiceIdErr (nodeId : String) (i : Nat) : String :=
  s!"Node {nodeId} choice {i} must have a valid id"

/-- Error message for a choice without valid text. -/
def choiceTextErr (nodeId : String) (i : Nat) : String :=
  s!"Node {nodeId} choice {i} must have valid text"

/-- Error message for a choice without a valid nextNodeId. -/
def choiceNextErr (nodeId : String) (i : Nat) : String :=
  s!"Node {nodeId} choice {i} must have a valid nextNodeId"

/-- Error message for a dangling choice reference. -/
def choiceRefErr (nodeId : String) (i : Nat) (target : String) : String :=
  s!"Node {nodeId} choice {i} references non-existent node {target}"

/-- Error message for an end node that still has choices. -/
def endNodeChoicesErr (nodeId : String) : String :=
  s!"End node {nodeId} should not have choices"

/-- Error message for a non-end node without choices. -/
def nonEndNoChoicesErr (nodeId : String) : String :=
  s!"Non-end node {nodeId} must have at least one choice"

/-- Error message for a missing start node. -/
def startNodeMissingErr (startId : String) : String :=
  s!"Start node {startId} not found in nodes"

/-- One choice's accumulated errors in `SettingsHandler.validateStoryNode`. -/
def validateChoiceJson (nodeId : String) (i : Nat) (allNodeIds : List String)
    (c : Choice) : List String :=
  (if c.id = "" then [choiceIdErr nodeId i] else []) ++
  (if c.text = "" then [choiceTextErr nodeId i] else []) ++
  (if c.nextNodeId = "" then [choiceNextErr nodeId i]
   else if allNodeIds.contains c.nextNodeId then []
   else [choiceRefErr nodeId i c.nextNodeId])

/-- `SettingsHandler.validateStoryNode`: all of one node's failing checks,
accumulated in source order. -/
def validateStoryNodeJson (nodeId : String) (allNodeIds : List String)
    (node : StoryNode) : List String :=
  (if node.id = "" ∨ node.id ≠ nodeId then [nodeIdErr nodeId] else []) ++
  (if node.title = "" then [nodeTitleErr nodeId] else []) ++
  (if node.content = "" then [nodeContentErr nodeId] else []) ++
  ((node.choices.getD []).enum.flatMap
    (fun p => validateChoiceJson nodeId p.1 allNodeIds p.2)) ++
  (if node.isEnd = some true ∧ node.choices.getD [] ≠ [] then
    [endNodeChoicesErr nodeId] else []) ++
  (if node.isEnd ≠ some true ∧ node.choices.getD [] = [] then
    [nonEndNoChoicesErr nodeId] else [])

/-- The node ids reported as unreachable by `SettingsHandler.validateStoryJson`
(every node id other than the start node that the traversal never reaches). -/
def unreachableNodesJson (s : Story) : List String :=
  (s.nodes.map (fun p => p.1)).filter
    (fun id => ¬ (id = s.startNodeId ∨ (findReachableNodes s).contains id))

/-- The single accumulated error entry naming all unreachable nodes. -/
def unreachableNodesErr (s : Story) : String :=
  "Unreachable nodes found: " ++ String.intercalate ", " (unreachableNodesJson s)

/-- `SettingsHandler.validateStoryJson` on a typed story: accumulates every
failing check (top-level fields, node count, start-node existence, per-node
checks, unreachable nodes) into `errors`, collects soft `warnings`, and is
valid exactly when `errors` is empty. Unreachable nodes are pushed onto
`errors`, not `warnings`. -/
def validateStoryJson (s : Story) : StoryValidationResult :=
  let nodeIds := s.nodes.map (fun p => p.1)
  let errors :=
    (if s.title = "" then ["Story must have a valid title field"] else []) ++
    (if s.description = "" then ["Story must have a valid description field"] else []) ++
    (if s.startNodeId = "" then ["Story must have a valid startNodeId field"] else []) ++
    (if nodeIds.isEmpty then ["Story must have at least one node"] else []) ++
    (if s.startNodeId ≠ "" ∧ s.getNode s.startNodeId = none then
      [startNodeMissingErr s.startNodeId] else []) ++
    (s.nodes.flatMap (fun p => validateStoryNodeJson p.1 nodeIds p.2)) ++
    (if (unreachableNodesJson s).isEmpty then [] else [unreachableNodesErr s])
  let warnings :=
    (if 50 < nodeIds.length then
      ["Large story detected. Consider breaking into smaller stories for better performance."] else []) ++
    (if 100 < s.title.length then
      ["Story title is very long. Consider shortening for better display."] else []) ++
    (if 500 < s.description.length then
      ["Story description is very long. Consider shortening for better readability."] else [])
  { isValid := errors.isEmpty, errors := errors, warnings := warnings }

/-! ## Vote counting (voteCounter.ts)

The external score read (`context.reddit.getCommentById` followed by
`comment.score`) is abstracted as an oracle `fetch : String → Nat → Option Int`
giving, for a comment id and a 1-based attempt number, the fetched score or
`none` for a thrown/transient failure of that attempt. -/

/-- The exponential backoff used between fetch attempts
(`Math.pow(2, attempt - 1) * 1000` milliseconds). -/
def backoffDelayMs (attempt : Nat) : Nat := 2 ^ (attempt - 1) * 1000

/-- The retry loop body of `VoteCounter.getCommentUpvotes`: given remaining
attempts (`fuel`) and the current 1-based attempt number, return the result of
the last attempt tried, the number of attempts made, and the list of backoff
delays waited between attempts (no wait after the final attempt). -/
def fetchWithRetry (fetch : String → Nat → Option Int) (commentId : String) :
    Nat → Nat → Option Int × Nat × List Nat
  | 0, _ => (none, 0, [])
  | fuel + 1, attempt =>
      match fetch commentId attempt with
      | some v => (some v, 1, [])
      | none =>
          match fuel with
          | 0 => (none, 1, [])
          | f + 1 =>
              let r := fetchWithRetry fetch commentId (f + 1) (attempt + 1)
              (r.1, r.2.1 + 1, backoffDelayMs attempt :: r.2.2)

/-- `VoteCounter.getCommentUpvotes`: up to `maxRetries` attempts starting at
attempt 1; `none` models the exhaustion throw. -/
def getCommentUpvotes (fetch : String → Nat → Option Int) (maxRetries : Nat)
    (commentId : String) : Option Int :=
  (fetchWithRetry fetch commentId maxRetries 1).1

/-- Number of fetch attempts actually made by `getCommentUpvotes`. -/
def getCommentUpvotesAttempts (fetch : String → Nat → Option Int)
    (maxRetries : Nat) (commentId : String) : Nat :=
  (fetchWithRetry fetch commentId maxRetries 1).2.1

/-- Backoff delays waited between the attempts of `getCommentUpvotes`. -/
def getCommentUpvotesDelays (fetch : String → Nat → Option Int)
    (maxRetries : Nat) (commentId : String) : List Nat :=
  (fetchWithRetry fetch commentId maxRetries 1).2.2

/-- Stable insertion of a vote result into a descending-sorted list: `x` goes
in front of the first entry whose score does not exceed it, so earlier entries
stay first among equal scores. -/
def insertDesc (x : VoteResult) : List VoteResult → List VoteResult
  | [] => [x]
  | y :: ys =>
      if decide (y.upvotes ≤ x.upvotes) then x :: y :: ys
      else y :: insertDesc x ys

/-- Stable descending sort by upvotes, the denotation of the source's
`results.sort((a, b) => b.upvotes - a.upvotes)` (JavaScript array sort is
stable). -/
def sortDesc : List VoteResult → List VoteResult
  | [] => []
  | x :: xs => insertDesc x (sortDesc xs)

/-- `VoteCounter.countVotes`: one result per tracked `(choiceId, commentId)`
pair in insertion order, scoring 0 for any pair whose fetch retries are
exhausted (the per-choice catch), then sorted by upvotes descending. -/
def countVotes (fetch : String → Nat → Option Int) (maxRetries : Nat)
    (voteData : Option VoteData) : List VoteResult :=
  match voteData with
  | none => []
  | some vd =>
      sortDesc (vd.choices.map (fun p =>
        match getCommentUpvotes fetch maxRetries p.2 with
        | some v => { choiceId := p.1, commentId := p.2, upvotes := v }
        | none => { choiceId := p.1, commentId := p.2, upvotes := 0 }))

/-- The tally entries meeting the minimum-vote requirement
(`validResults` in `VoteCounter.getWinningChoice`). -/
def validResultsOf (fetch : String → Nat → Option Int) (maxRetries : Nat)
    (minimumVotes : Int) (voteData : Option VoteData) : List VoteResult :=
  (countVotes fetch maxRetries voteData).filter
    (fun r => decide (minimumVotes ≤ r.upvotes))

/-- The tied top scorers (`topChoices` in `VoteCounter.getWinningChoice`):
every valid result whose score equals the first (highest) one. -/
def topTiedResults (fetch : String → Nat → Option Int) (maxRetries : Nat)
    (minimumVotes : Int) (voteData : Option VoteData) : List VoteResult :=
  match validResultsOf fetch maxRetries minimumVotes voteData with
  | [] => []
  | top :: rest =>
      (top :: rest).filter (fun r => decide (r.upvotes = top.upvotes))

/-- `VoteCounter.resolveTie`: random mode picks an injected index into the
tied list (`Math.floor(Math.random() * length)`); otherwise the first entry
of the tied list wins. -/
def resolveTie (randomTieBreaking : Bool) (randomIndex : Nat)
    (tied : List VoteResult) : Option String :=
  if randomTieBreaking then
    (tied.get? (randomIndex % tied.length)).map (fun r => r.choiceId)
  else
    tied.head?.map (fun r => r.choiceId)

/-- `VoteCounter.getWinningChoice`: filter by minimum votes, take the tied top
scorers of the sorted tally, and return the single top scorer or the
tie-break winner. -/
def getWinningChoice (fetch : String → Nat → Option Int) (maxRetries : Nat)
    (minimumVotes : Int) (randomTieBreaking : Bool) (randomIndex : Nat)
    (voteData : Option VoteData) : Option String :=
  if (countVotes fetch maxRetries voteData).isEmpty then none
  else
    match validResultsOf fetch maxRetries minimumVotes voteData with
    | [] => none
    | top :: rest =>
        let topChoices :=
          (top :: rest).filter (fun r => decide (r.upvotes = top.upvotes))
        if topChoices.length = 1 then topChoices.head?.map (fun r => r.choiceId)
        else resolveTie randomTieBreaking randomIndex topChoices

/-- The tie-break winner the specification prescribes for
`tieBreakMode = first`: among the tied top scorers, the choice appearing
first in the current node's choice order. Stated from the spec's words for
comparison with `resolveTie`. -/
def nodeOrderTieWinner (node : StoryNode) (tied : List VoteResult) :
    Option String :=
  ((node.choices.getD []).find?
    (fun c => tied.any (fun r => r.choiceId == c.id))).map (fun c => c.id)

/-! ## Scheduler (schedulerHandler.ts)

The external collaborators of `executeRoundAdvancement` (the vote counter's
winner, the configuration read, and the success of the recap / next-round
post side effects) are collected in an environment record; the persisted
game state is threaded explicitly (`gs` is what `getGameState` reads and
`setGameState` writes). -/

/-- The outcome fields of a `SchedulerResult`. -/
structure ExecResult where
  success : Bool
  error : Option String
deriving Repr, DecidableEq

/-- Environment of one `executeRoundAdvancement` firing: the loaded story,
the winner reported by `VoteCounter.getWinningChoice`, the stored
configuration, and whether the recap / next-round post side effects succeed. -/
structure ExecEnv where
  story : Option Story
  winning : Option String
  config : Option AppConfig
  recapOk : Bool
  postOk : Bool
deriving Repr, DecidableEq

/-- `SchedulerHandler.executeRoundAdvancement`: the full firing sequence.
Returns the result (`Except.error` models a `throw` escaping to the retry
loop, `Except.ok` a returned `SchedulerResult`) together with the persisted
game state after the call. On a next-round post failure the handler writes
back `gameStateBeforePost` — a copy of the state read *after*
`advanceStoryByChoice` — and navigates to its `currentNodeId`. -/
def executeRoundAdvancement (env : ExecEnv) (gs0 : Option GameState)
    (now : Int) : Except String ExecResult × Option GameState :=
  match env.winning with
  | none =>
      (Except.ok { success := false, error := some "No winning choice could be determined" }, gs0)
  | some cid =>
      match advanceStoryByChoice env.story gs0 cid now with
      | Except.error e => (Except.error e, gs0)
      | Except.ok g1 =>
          match getCurrentNode env.story (some g1) with
          | Except.error e => (Except.error e, some g1)
          | Except.ok none =>
              (Except.error "Failed to get new current node after advancement", some g1)
          | Except.ok (some node) =>
              if node.isEnd = some true then
                match env.config with
                | none => (Except.error "No configuration found for recap creation", some g1)
                | some _ =>
                    if env.recapOk then
                      (Except.ok { success := true, error := none }, some g1)
                    else
                      (Except.error "Failed to create recap post", some g1)
              else
                match env.config with
                | none => (Except.error "No configuration found for next round creation", some g1)
                | some _ =>
                    let gameStateBeforePost := g1
                    if env.postOk then
                      (Except.ok { success := true, error := none }, some g1)
                    else
                      match navigateToNode env.story (some gameStateBeforePost)
                          gameStateBeforePost.currentNodeId with
                      | Except.ok g2 =>
                          (Except.error "Failed to create next round post", some g2)
                      | Except.error e => (Except.error e, some gameStateBeforePost)

/-- Trace of one `handleRoundAdvancement` call: final result, number of
`executeRoundAdvancement` invocations, delays waited between attempts, and
the persisted game state afterwards. -/
structure HandlerRun where
  result : ExecResult
  attempts : Nat
  delays : List Nat
  finalState : Option GameState
deriving Repr, DecidableEq

/-- The retry loop of `SchedulerHandler.handleRoundAdvancement`: an attempt
that returns a successful result ends the loop; an attempt that throws or
returns an unsuccessful result (which the handler turns into a thrown error)
is followed, while attempts remain, by a fixed `retryDelayMs` wait and a
retry. `exec` is the state transformer of one `executeRoundAdvancement`
call, indexed by the attempt number. -/
def retryLoop (exec : Nat → Option GameState → Except String ExecResult × Option GameState)
    (retryDelayMs : Nat) :
    Nat → Nat → Option GameState → HandlerRun
  | 0, _, s =>
      { result := { success := false, error := some "All attempts failed" },
        attempts := 0, delays := [], finalState := s }
  | fuel + 1, attempt, s =>
      let step := exec attempt s
      let succeeded : Option ExecResult :=
        match step.1 with
        | Except.ok res => if res.success then some res else none
        | Except.error _ => none
      match succeeded with
      | some res =>
          { result := res, attempts := 1, delays := [], finalState := step.2 }
      | none =>
          match fuel with
          | 0 =>
              { result := { success := false, error := some "All attempts failed" },
                attempts := 1, delays := [], finalState := step.2 }
          | f + 1 =>
              let rest := retryLoop exec retryDelayMs (f + 1) (attempt + 1) step.2
              { result := rest.result, attempts := rest.attempts + 1,
                delays := retryDelayMs :: rest.delays, finalState := rest.finalState }

/-- `SchedulerHandler.handleRoundAdvancement` for a firing carrying a round
number: the inactive-game and round-mismatch checks run once, before the
retry loop, and end the call without any `executeRoundAdvancement` attempt;
otherwise the loop runs with the configured budget and fixed delay. -/
def handleRoundAdvancement
    (exec : Nat → Option GameState → Except String ExecResult × Option GameState)
    (maxRetries retryDelayMs : Nat) (eventRound : Nat)
    (gs : Option GameState) : HandlerRun :=
  match gs with
  | none =>
      { result := { success := false, error := some "Game is no longer active" },
        attempts := 0, delays := [], finalState := gs }
  | some g =>
      if ¬ g.isActive then
        { result := { success := false, error := some "Game is no longer active" },
          attempts := 0, delays := [], finalState := gs }
      else if g.roundNumber ≠ eventRound then
        { result := { success := false, error := some "Round mismatch" },
          attempts := 0, delays := [], finalState := gs }
      else
        retryLoop exec retryDelayMs maxRetries 1 gs

/-- Whether one attempt outcome counts as failed for the retry loop (a thrown
error, or a returned result with `success = false`). -/
def attemptFailed (r : Except String ExecResult) : Bool :=
  match r with
  | Except.ok res => !res.success
  | Except.error _ => true

/-- Return record of `SchedulerHandler.getNextScheduledRound`. -/
structure ScheduleInfo where
  roundNumber : Nat
  scheduledTime : Int
  timeRemaining : Int
deriving Repr, DecidableEq

/-- `SchedulerHandler.getNextScheduledRound`: computes the round end as
`roundStartTime + roundDurationHours * 60 * 60 * 1000` — always scaling by
hours, with no test-mode branch — and clamps the remaining time at 0. -/
def getNextScheduledRound (gs : Option GameState) (now : Int) :
    Option ScheduleInfo :=
  match gs with
  | none => none
  | some g =>
      if ¬ g.isActive then none
      else
        let roundEndTime := g.roundStartTime + g.roundDurationHours * 60 * 60 * 1000
        some { roundNumber := g.roundNumber, scheduledTime := roundEndTime,
               timeRemaining := max 0 (roundEndTime - now) }

/-- No two consecutive equal entries in a path. -/
def noConsecDup : List String → Bool
  | [] => true
  | [_] => true
  | a :: b :: rest => (!(a == b)) && noConsecDup (b :: rest)

/-! ## Concrete instances used by witnesses and counterexamples -/

/-- A three-node chain story: n1 to n2 to n3, with n3 terminal. -/
def storyEx : Story :=
  { title := "Tale", description := "A tale", startNodeId := "n1",
    nodes :=
      [("n1", { id := "n1", title := "Node 1", content := "body", imageUrl := none,
                choices := some [{ id := "c1", text := "go", nextNodeId := "n2" }], isEnd := none }),
       ("n2", { id := "n2", title := "Node 2", content := "body", imageUrl := none,
                choices := some [{ id := "c2", text := "end", nextNodeId := "n3" }], isEnd := none }),
       ("n3", { id := "n3", title := "Node 3", content := "body", imageUrl := none,
                choices := none, isEnd := some true })] }

/-- An active round-1 game state at the start of `storyEx`. -/
def gsEx : GameState :=
  { currentNodeId := "n1", roundNumber := 1, storyPath := ["n1"], isActive := true,
    roundStartTime := 0, roundDurationHours := 24, testMode := false }

/-- A stored configuration. -/
def cfgEx : AppConfig :=
  { roundDurationHours := 24, isGameActive := true, subredditName := "sub" }

/-- Firing environment whose next-round post side effect fails. -/
def envPostFail : ExecEnv :=
  { story := some storyEx, winning := some "c1", config := some cfgEx,
    recapOk := true, postOk := false }

/-- The state `advanceStoryByChoice` persists for `gsEx` and choice c1 at
time 99. -/
def gsExAdvanced : GameState :=
  { currentNodeId := "n2", roundNumber := 2, storyPath := ["n1", "n2"], isActive := true,
    roundStartTime := 99, roundDurationHours := 24, testMode := false }

/-- Firing environment in which the vote counter reports no winner. -/
def envNoWinner : ExecEnv :=
  { story := some storyEx, winning := none, config := some cfgEx,
    recapOk := true, postOk := true }

/-- Score oracle for the tie-break scenario: comments cA and cB score 10,
cC scores 5, every attempt succeeding. -/
def fetchTie : String → Nat → Option Int := fun co _ =>
  if co = "cA" then some 10 else if co = "cB" then some 10
  else if co = "cC" then some 5 else none

/-- Vote record tracked in insertion order A, B, C. -/
def vdTie : VoteData :=
  { choices := [("A", "cA"), ("B", "cB"), ("C", "cC")], roundEndTime := 0 }

/-- A current node whose choice order is B, A, C. -/
def nodeBAC : StoryNode :=
  { id := "start", title := "t", content := "x", imageUrl := none,
    choices := some [{ id := "B", text := "b", nextNodeId := "nb" },
                     { id := "A", text := "a", nextNodeId := "na" },
                     { id := "C", text := "c", nextNodeId := "nc" }], isEnd := none }

/-- Score oracle for the fetch-failure scenario: comment bad always fails,
every other comment scores 7. -/
def fetchOneBad : String → Nat → Option Int := fun co _ =>
  if co = "bad" then none else some 7

/-- Vote record with one good and one failing reference. -/
def vdOneBad : VoteData :=
  { choices := [("A", "good"), ("B", "bad")], roundEndTime := 0 }

/-- A valid story with an unreachable end node n3. -/
def storyU : Story :=
  { title := "U", description := "d", startNodeId := "n1",
    nodes :=
      [("n1", { id := "n1", title := "t", content := "c", imageUrl := none,
                choices := some [{ id := "c1", text := "x", nextNodeId := "n2" }], isEnd := none }),
       ("n2", { id := "n2", title := "t", content := "c", imageUrl := none,
                choices := none, isEnd := some true }),
       ("n3", { id := "n3", title := "t", content := "c", imageUrl := none,
                choices := none, isEnd := some true })] }

/-- A node with an empty title (defect one of `storyD`). -/
def nodeDa : StoryNode :=
  { id := "a", title := "", content := "c", imageUrl := none,
    choices := some [{ id := "ca", text := "x", nextNodeId := "b" }], isEnd := none }

/-- A node whose first choice dangles to the nonexistent node zzz (defect two
of `storyD`). -/
def nodeDb : StoryNode :=
  { id := "b", title := "t", content := "c", imageUrl := none,
    choices := some [{ id := "cb", text := "y", nextNodeId := "zzz" }], isEnd := none }

/-- A story with two independent defects: node a has an empty title and node
b's first choice dangles to the nonexistent node zzz. -/
def storyD : Story :=
  { title := "D", description := "d", startNodeId := "a",
    nodes := [("a", nodeDa), ("b", nodeDb)] }

/-- Configuration of a 2-minute test-mode game. -/
def cfgTest : AppConfig :=
  { roundDurationHours := 2, isGameActive := true, subredditName := "sub" }

/-- A mid-game test-mode state (duration 2 minutes, round 4). -/
def gsTestMode : GameState :=
  { currentNodeId := "n5", roundNumber := 4, storyPath := ["n1", "n3", "n5"], isActive := true,
    roundStartTime := 100, roundDurationHours := 2, testMode := true }

/-- A store holding the test-mode game. -/
def stTestMode : RedisStore :=
  { gameState := some gsTestMode, storyData := some storyEx, config := some cfgTest,
    voteData := [(1, vdTie), (4, vdOneBad)] }

/-- An active test-mode round-1 state, 2-minute rounds, started at time 0. -/
def gsTest9 : GameState :=
  { currentNodeId := "n1", roundNumber := 1, storyPath := ["n1"], isActive := true,
    roundStartTime := 0, roundDurationHours := 2, testMode := true }

/-- A store holding an active game, for `completeGame`. -/
def stComplete : RedisStore :=
  { gameState := some gsEx, storyData := some storyEx, config := some cfgEx,
    voteData := [(1, vdTie)] }

/-! ## Theorems -/

/-- C1: the spec claims a publish failure during `executeRoundAdvancement`
rolls the persisted `RoundState` back to the exact pre-firing snapshot and
reports a failure. The code evaluated at a concrete failing input does report
a failure, but leaves the persisted state advanced (round 2, node n2) instead
of the pre-firing one (round 1, node n1): the rollback snapshot is taken
after `advanceStoryByChoice`, so restoring it restores the already-advanced
state. -/
theorem publishFailureLeavesAdvancedState :
    executeRoundAdvancement envPostFail (some gsEx) 99 =
      (Except.error "Failed to create next round post", some gsExAdvanced) ∧
    (executeRoundAdvancement envPostFail (some gsEx) 99).2 ≠ some gsEx ∧
    gsExAdvanced.roundNumber = gsEx.roundNumber + 1 := by
  refine ⟨rfl, ?_, rfl⟩
  decide

/-- C2 counterexample: with tally `{A:10, B:10, C:5}` tracked in order A, B,
C and a current node whose choice order is B, A, C, first-mode tie-breaking
(`randomTieBreaking = false`) returns A — the first tied entry of the sorted
tally — not B, the first tied choice in the node's choice order that the
claim prescribes. -/
theorem tieBreakFirstUsesTallyOrderCounterexample :
    getWinningChoice fetchTie 3 0 false 0 (some vdTie) = some "A" ∧
    nodeOrderTieWinner nodeBAC (topTiedResults fetchTie 3 0 (some vdTie)) = some "B" ∧
    getWinningChoice fetchTie 3 0 false 0 (some vdTie) ≠
      nodeOrderTieWinner nodeBAC (topTiedResults fetchTie 3 0 (some vdTie)) := by
  refine ⟨rfl, rfl, ?_⟩
  decide

/-- C3 counterexample: a firing whose vote count yields no winner is retried
the full budget of 3 attempts — `executeRoundAdvancement` returns an
unsuccessful result, which `handleRoundAdvancement` converts into a thrown
error and retries — contradicting the claim that the no-winner early exit is
never retried (which would mean at most one attempt). -/
theorem noWinnerOutcomeIsRetriedCounterexample :
    (handleRoundAdvancement (fun _ s => executeRoundAdvancement envNoWinner s 50)
      3 5000 1 (some gsEx)).attempts = 3 ∧
    ¬ (handleRoundAdvancement (fun _ s => executeRoundAdvancement envNoWinner s 50)
      3 5000 1 (some gsEx)).attempts ≤ 1 := by
  refine ⟨rfl, ?_⟩
  decide

/-- C6 counterexample: `storyU` passes every fatal check of the story
engine's validation (structure and references both succeed, with the
unreached node n3 reported only as a warning), yet
`SettingsHandler.validateStoryJson` reports the unreachable node as a fatal
error and fails validation. -/
theorem unreachableNodesFatalInSettingsCounterexample :
    validateStoryStructure storyU = Except.ok () ∧
    (validateStoryReferences storyU).1 = Except.ok () ∧
    (validateStoryReferences storyU).2 = ["n3"] ∧
    (validateStoryJson storyU).isValid = false ∧
    unreachableNodesErr storyU ∈ (validateStoryJson storyU).errors := by
  refine ⟨rfl, rfl, rfl, rfl, ?_⟩
  decide

/-- C7 counterexample: `storyD` has two independent defects (missing title on
node a, dangling choice on node b), but the story engine's validation throws
at the first one and reports a single error naming only node a's title — not
one error per defect — while `validateStoryJson` accumulates both. -/
theorem engineValidationFailFastCounterexample :
    loadStoryValidate storyD = Except.error "Node a must have a valid title string" ∧
    (validateStoryJson storyD).errors = [nodeTitleErr "a", choiceRefErr "b" 0 "zzz"] ∧
    (validateStoryJson storyD).isValid = false :=
  ⟨rfl, rfl, rfl⟩

/-- C8 counterexample: resetting an active test-mode game yields a state with
`isActive = true` (the claim says reset clears `active`) and
`testMode = false` (the claim says the hours/minutes unit of the game
instance is unchanged, but the input state had `testMode = true`). -/
theorem resetGameActiveAndUnitCounterexample :
    gsTestMode.isActive = true ∧ gsTestMode.testMode = true ∧
    (resetGame none stTestMode 500).map
      (fun st => st.gameState.map (fun g => (g.isActive, g.testMode))) =
      Except.ok (some (true, false)) :=
  ⟨rfl, rfl, rfl⟩

/-- C9: the spec claims the scheduler's and the state machine's
time-remaining computations agree for the same state. Evaluated at an active
test-mode state with a 2-minute round started at time 0,
`StoryEngine.getTimeRemainingInRound` returns 120000 ms (2 minutes) while
`SchedulerHandler.getNextScheduledRound` returns 7200000 ms (2 hours): the
scheduler always scales `roundDurationHours` by hours and ignores the
test-mode minutes unit documented on `GameState`. -/
theorem schedulerTimeRemainingIgnoresTestMode :
    getTimeRemainingInRound (some gsTest9) 0 = 120000 ∧
    (getNextScheduledRound (some gsTest9) 0).map (fun i => i.timeRemaining) =
      some 7200000 ∧
    getTimeRemainingInRound (some gsTest9) 0 ≠
      ((getNextScheduledRound (some gsTest9) 0).map (fun i => i.timeRemaining)).getD 0 := by
  refine ⟨rfl, rfl, ?_⟩
  decide

/-! ### Helper lemmas -/

/-- `clearGameData` never touches the story key. -/
theorem clearGameData_storyData (st : RedisStore) :
    (clearGameData st).storyData = st.storyData := by
  unfold clearGameData
  cases st.gameState <;> rfl

/-- C10: `completeGame` only flips `isActive` off: with no stored game state
it writes nothing, and with one it preserves the story and vote keys and
every game-state field except `isActive`, which becomes `false`. -/
theorem completeGameSpec (st : RedisStore) :
    (st.gameState = none → completeGame st = st) ∧
    (completeGame st).storyData = st.storyData ∧
    (completeGame st).voteData = st.voteData ∧
    (∀ g, st.gameState = some g →
      ∃ g', (completeGame st).gameState = some g' ∧ g'.isActive = false ∧
        g'.currentNodeId = g.currentNodeId ∧ g'.roundNumber = g.roundNumber ∧
        g'.storyPath = g.storyPath ∧ g'.roundStartTime = g.roundStartTime ∧
        g'.roundDurationHours = g.roundDurationHours ∧ g'.testMode = g.testMode) := by
  refine ⟨fun h => ?_, ?_, ?_, fun g hg => ?_⟩
  · simp [completeGame, h]
  · cases hg : st.gameState with
    | none => simp [completeGame, hg]
    | some g => cases hc : st.config <;> simp [completeGame, hg, hc]
  · cases hg : st.gameState with
    | none => simp [completeGame, hg]
    | some g => cases hc : st.config <;> simp [completeGame, hg, hc]
  · refine ⟨{ g with isActive := false }, ?_, rfl, rfl, rfl, rfl, rfl, rfl, rfl⟩
    cases hc : st.config <;> simp [completeGame, hg, hc]

/-- C10 witness: completing the concrete active game leaves the story intact
and deactivates the stored state. -/
theorem completeGameSpecWitness :
    (completeGame stComplete).storyData = stComplete.storyData ∧
    (∃ g', (completeGame stComplete).gameState = some g' ∧ g'.isActive = false ∧
      g'.currentNodeId = gsEx.currentNodeId ∧ g'.roundNumber = gsEx.roundNumber) := by
  have h := completeGameSpec stComplete
  obtain ⟨g', h1, h2, h3, h4, -⟩ := h.2.2.2 gsEx rfl
  exact ⟨h.2.1, g', h1, h2, h3, h4⟩

/-- C8 (amended): `resetGame` needs a loaded story and a configuration; it
then reinitializes a fresh game: `roundNumber = 1`, `path = [startNodeId]`,
the configured round-duration value, the story key untouched — but the new
state is *active* (`isActive = true`, reset does not clear it) and
`testMode = false` (the hours/minutes unit of the previous game is not
preserved). -/
theorem resetGameSpec (currentStory : Option Story) (st : RedisStore) (now : Int)
    (s : Story) (cfg : AppConfig)
    (hs : (currentStory <|> st.storyData) = some s) (hc : st.config = some cfg) :
    ∃ st', resetGame currentStory st now = Except.ok st' ∧
      st'.storyData = st.storyData ∧
      st'.gameState = some
        { currentNodeId := s.startNodeId, roundNumber := 1,
          storyPath := [s.startNodeId], isActive := true, roundStartTime := now,
          roundDurationHours := cfg.roundDurationHours, testMode := false } ∧
      st'.config = some
        { roundDurationHours := cfg.roundDurationHours, isGameActive := true,
          subredditName := cfg.subredditName } := by
  refine ⟨initializeNewGame (clearGameData st) s.startNodeId cfg.subredditName
    cfg.roundDurationHours false now, ?_, ?_, rfl, rfl⟩
  · simp [resetGame, hs, hc]
  · show (clearGameData (clearGameData st)).storyData = st.storyData
    rw [clearGameData_storyData, clearGameData_storyData]

/-- C8 witness: resetting the stored test-mode game produces the fresh round-1
state at the story's start node with the configured 2-unit duration. -/
theorem resetGameSpecWitness :
    ∃ st', resetGame none stTestMode 500 = Except.ok st' ∧
      st'.storyData = stTestMode.storyData ∧
      st'.gameState = some
        { currentNodeId := "n1", roundNumber := 1, storyPath := ["n1"],
          isActive := true, roundStartTime := 500, roundDurationHours := 2,
          testMode := false } ∧
      st'.config = some
        { roundDurationHours := 2, isGameActive := true, subredditName := "sub" } := by
  exact resetGameSpec none stTestMode 500 storyEx cfgTest rfl rfl

/-- C2 (amended): under `tieBreakMode = first` (`randomTieBreaking = false`)
any winner returned by `getWinningChoice` is the head of the filtered,
descending-sorted tally — i.e. the tied top scorer appearing first in the
sorted tally order (stable w.r.t. vote-record insertion order) — and the
current node's choice order plays no role. -/
theorem tieBreakFirstWinnerIsHeadOfSortedTally
    (fetch : String → Nat → Option Int) (mr : Nat) (minV : Int) (idx : Nat)
    (vd : Option VoteData) (w : String)
    (h : getWinningChoice fetch mr minV false idx vd = some w) :
    ∃ r, (validResultsOf fetch mr minV vd).head? = some r ∧ w = r.choiceId := by
  unfold getWinningChoice at h
  split at h
  · exact absurd h (by simp)
  · split at h
    · exact absurd h (by simp)
    · rename_i top rest hv
      refine ⟨top, ?_, ?_⟩
      · rw [hv]; rfl
      · have hfil : List.filter (fun r => decide (r.upvotes = top.upvotes)) (top :: rest) =
            top :: List.filter (fun r => decide (r.upvotes = top.upvotes)) rest := by
          rw [List.filter_cons]
          simp
        simp only [hfil] at h
        split at h
        · simpa using h.symm
        · simp [resolveTie] at h
          exact h.symm

/-- C2 witness: in the tie scenario the theorem pins the winner A to the head
of the sorted tally, whose head is the A entry. -/
theorem tieBreakFirstWinnerWitness :
    getWinningChoice fetchTie 3 0 false 0 (some vdTie) = some "A" ∧
    ∃ r, (validResultsOf fetchTie 3 0 (some vdTie)).head? = some r ∧ "A" = r.choiceId := by
  refine ⟨rfl, ?_⟩
  exact tieBreakFirstWinnerIsHeadOfSortedTally fetchTie 3 0 0 (some vdTie) "A" rfl

/-- With a score oracle that fails on every attempt for a given comment, the
fetch retry loop uses all its remaining attempts, returns no score, and waits
the exponential backoff `backoffDelayMs attempt` between successive attempts. -/
theorem fetchWithRetry_allFail (fetch : String → Nat → Option Int) (co : String)
    (hfail : ∀ k, fetch co k = none) :
    ∀ (fuel attempt : Nat),
      fetchWithRetry fetch co (fuel + 1) attempt =
        (none, fuel + 1, (List.range fuel).map (fun i => backoffDelayMs (attempt + i)))
  | 0, attempt => by simp [fetchWithRetry, hfail]
  | fuel + 1, attempt => by
      have ih := fetchWithRetry_allFail fetch co hfail fuel (attempt + 1)
      simp only [fetchWithRetry, hfail, ih, Prod.mk.injEq, List.range_succ_eq_map,
        List.map_cons, List.map_map, Nat.add_zero, List.cons.injEq, true_and]
      apply List.map_congr_left
      intro a _
      simp only [Function.comp_apply]
      have hx : attempt + 1 + a = attempt + (a + 1) := by omega
      rw [hx]

/-- Inserting into a descending-sorted list is a permutation with consing. -/
theorem insertDesc_perm (x : VoteResult) (l : List VoteResult) :
    List.Perm (insertDesc x l) (x :: l) := by
  induction l with
  | nil => simp [insertDesc]
  | cons y ys ih =>
      unfold insertDesc
      split
      · exact List.Perm.refl _
      · exact List.Perm.trans (List.Perm.cons y ih) (List.Perm.swap x y ys)

/-- The stable descending sort is a permutation of its input. -/
theorem sortDesc_perm (l : List VoteResult) : List.Perm (sortDesc l) l := by
  induction l with
  | nil => exact List.Perm.refl _
  | cons x xs ih =>
      exact List.Perm.trans (insertDesc_perm x (sortDesc xs)) (List.Perm.cons x ih)

/-- C5: a score-fetch failure is isolated per choice. For any tracked pair
whose comment fetch fails on every attempt, the fetch is retried for the
whole budget with exponential backoff `2 ^ (attempt - 1)` seconds between
attempts, the exhausted fetch yields no score, the tally records upvotes 0
for that choice, and every other tracked pair is still tallied with its own
fetched score (0 on its own exhaustion). -/
theorem voteFetchFailureIsolation
    (fetch : String → Nat → Option Int) (mr : Nat) (vd : VoteData)
    (cid co : String)
    (hmem : (cid, co) ∈ vd.choices)
    (hfail : ∀ k, fetch co k = none) :
    ({ choiceId := cid, commentId := co, upvotes := 0 } : VoteResult) ∈
      countVotes fetch mr (some vd) ∧
    getCommentUpvotes fetch mr co = none ∧
    getCommentUpvotesAttempts fetch mr co = mr ∧
    getCommentUpvotesDelays fetch mr co =
      (List.range (mr - 1)).map (fun i => 2 ^ i * 1000) ∧
    (∀ cid2 co2, (cid2, co2) ∈ vd.choices →
      ({ choiceId := cid2, commentId := co2,
         upvotes := (getCommentUpvotes fetch mr co2).getD 0 } : VoteResult) ∈
        countVotes fetch mr (some vd)) := by
  have hall : fetchWithRetry fetch co mr 1 =
      (none, mr, (List.range (mr - 1)).map (fun i => backoffDelayMs (1 + i))) := by
    cases mr with
    | zero => simp [fetchWithRetry]
    | succ m => simpa using fetchWithRetry_allFail fetch co hfail m 1
  have hnone : getCommentUpvotes fetch mr co = none := by
    unfold getCommentUpvotes; rw [hall]
  have hstill : ∀ cid2 co2, (cid2, co2) ∈ vd.choices →
      ({ choiceId := cid2, commentId := co2,
         upvotes := (getCommentUpvotes fetch mr co2).getD 0 } : VoteResult) ∈
        countVotes fetch mr (some vd) := by
    intro cid2 co2 hm
    unfold countVotes
    apply (List.Perm.mem_iff (sortDesc_perm _)).mpr
    have hmap := List.mem_map_of_mem
      (f := fun p : String × String =>
        match getCommentUpvotes fetch mr p.2 with
        | some v => ({ choiceId := p.1, commentId := p.2, upvotes := v } : VoteResult)
        | none => { choiceId := p.1, commentId := p.2, upvotes := 0 }) hm
    cases hu : getCommentUpvotes fetch mr co2 with
    | none => simpa [hu] using hmap
    | some v => simpa [hu] using hmap
  refine ⟨?_, hnone, ?_, ?_, hstill⟩
  · have := hstill cid co hmem
    simpa [hnone] using this
  · unfold getCommentUpvotesAttempts; rw [hall]
  · unfold getCommentUpvotesDelays; rw [hall]
    apply List.map_congr_left
    intro a _
    simp [backoffDelayMs]

/-- C5 witness: with budget 3 and a comment that always fails, the tally
records 0 for that choice after attempts at delays 1s and 2s, while the other
tracked choice keeps its fetched score 7. -/
theorem voteFetchFailureIsolationWitness :
    ({ choiceId := "B", commentId := "bad", upvotes := 0 } : VoteResult) ∈
      countVotes fetchOneBad 3 (some vdOneBad) ∧
    getCommentUpvotesDelays fetchOneBad 3 "bad" = [1000, 2000] ∧
    getCommentUpvotesAttempts fetchOneBad 3 "bad" = 3 ∧
    ({ choiceId := "A", commentId := "good", upvotes := 7 } : VoteResult) ∈
      countVotes fetchOneBad 3 (some vdOneBad) := by
  have h := voteFetchFailureIsolation fetchOneBad 3 vdOneBad "B" "bad"
    (by decide) (fun k => rfl)
  refine ⟨h.1, ?_, h.2.2.1, ?_⟩
  · rw [h.2.2.2.1]; rfl
  · exact h.2.2.2.2 "A" "good" (by decide)

/-- Appending an entry different from the last preserves the
no-consecutive-duplicates property. -/
theorem noConsecDup_append :
    ∀ (p : List String) (n : String), noConsecDup p = true →
      p.getLast? ≠ some n → noConsecDup (p ++ [n]) = true
  | [], n, _, _ => rfl
  | [a], n, _, h2 => by
      have han : a ≠ n := fun he => h2 (by simp [he])
      simp [noConsecDup, han]
  | a :: b :: t2, n, h1, h2 => by
      have h1' : a ≠ b ∧ noConsecDup (b :: t2) = true := by
        simpa [noConsecDup] using h1
      have h2' : (b :: t2).getLast? ≠ some n := by
        simpa [List.getLast?_cons_cons] using h2
      have ih := noConsecDup_append (b :: t2) n h1'.2 h2'
      simp only [List.cons_append] at ih ⊢
      simpa [noConsecDup] using ⟨h1'.1, ih⟩

/-- What one successful `advanceStoryByChoice` call guarantees: the round
number is incremented, the round start time is stamped, the new current node
is the chosen choice's `nextNodeId` for a choice found on the current node,
and a path without consecutive duplicates stays that way. -/
theorem advance_ok_spec (story : Story) (g g' : GameState) (cid : String) (t : Int)
    (h : advanceStoryByChoice (some story) (some g) cid t = Except.ok g') :
    g'.roundNumber = g.roundNumber + 1 ∧
    g'.roundStartTime = t ∧
    (∃ node c, getCurrentNode (some story) (some g) = Except.ok (some node) ∧
      (node.choices.getD []).find? (fun x => x.id == cid) = some c ∧
      g'.currentNodeId = c.nextNodeId) ∧
    (noConsecDup g.storyPath = true → noConsecDup g'.storyPath = true) := by
  unfold advanceStoryByChoice at h
  split at h
  · exact absurd h (by simp)
  · exact absurd h (by simp)
  · rename_i node hcur
    split at h
    · exact absurd h (by simp)
    · rename_i cs hcs
      split at h
      · exact absurd h (by simp)
      · split at h
        · exact absurd h (by simp)
        · rename_i c hfind
          rw [Except.ok.injEq] at h
          subst h
          refine ⟨by split <;> rfl, by split <;> rfl,
            ⟨node, c, hcur, by simp [hcs, hfind], by split <;> rfl⟩, ?_⟩
          intro hp
          split
          · rename_i hcond
            cases hcond with
            | inl hemp =>
                have hnil : g.storyPath = [] := by simpa [List.isEmpty_iff] using hemp
                show noConsecDup (g.storyPath ++ [c.nextNodeId]) = true
                simp [hnil, noConsecDup]
            | inr hlast => exact noConsecDup_append g.storyPath c.nextNodeId hp hlast
          · exact hp

/-- C4: after `N` successive successful `advance` calls along valid edges,
the round number equals the initial one plus `N`, the path still has no two
consecutive equal entries (an id is appended only when it differs from the
last), and each successful call moves `currentNodeId` to the chosen choice's
`nextNodeId`. -/
theorem advanceManySpec (story : Story) :
    ∀ (steps : List (String × Int)) (gs gs' : GameState),
      advanceMany story gs steps = Except.ok gs' →
      noConsecDup gs.storyPath = true →
      (gs'.roundNumber = gs.roundNumber + steps.length ∧
       noConsecDup gs'.storyPath = true ∧
       (∀ g1 cid t g2, advanceStoryByChoice (some story) (some g1) cid t = Except.ok g2 →
         ∃ node c, getCurrentNode (some story) (some g1) = Except.ok (some node) ∧
           (node.choices.getD []).find? (fun x => x.id == cid) = some c ∧
           g2.currentNodeId = c.nextNodeId))
  | [], gs, gs', h, hp => by
      have hgs : gs = gs' := by simpa [advanceMany] using h
      subst hgs
      exact ⟨by simp, hp,
        fun g1 cid t g2 hs => (advance_ok_spec story g1 g2 cid t hs).2.2.1⟩
  | (cid, t) :: rest, gs, gs', h, hp => by
      rw [advanceMany] at h
      split at h
      · exact absurd h (by simp)
      · rename_i gs2 hstep
        obtain ⟨hr, _, _, hpres⟩ := advance_ok_spec story gs gs2 cid t hstep
        obtain ⟨ihr, ihp, ihc⟩ := advanceManySpec story rest gs2 gs' h (hpres hp)
        refine ⟨?_, ihp, ihc⟩
        rw [ihr, hr]
        simp only [List.length_cons]
        omega

/-- C4 witness: two successful advances on the chain story land on n3 in
round 3 with the duplicate-free path n1, n2, n3. -/
theorem advanceManySpecWitness :
    advanceMany storyEx gsEx [("c1", 10), ("c2", 20)] =
      Except.ok
        { currentNodeId := "n3", roundNumber := 3,
          storyPath := ["n1", "n2", "n3"], isActive := true, roundStartTime := 20,
          roundDurationHours := 24, testMode := false } ∧
    ({ currentNodeId := "n3", roundNumber := 3, storyPath := ["n1", "n2", "n3"],
       isActive := true, roundStartTime := 20, roundDurationHours := 24,
       testMode := false } : GameState).roundNumber = gsEx.roundNumber + 2 ∧
    noConsecDup ["n1", "n2", "n3"] = true := by
  have h := advanceManySpec storyEx [("c1", 10), ("c2", 20)] gsEx
    { currentNodeId := "n3", roundNumber := 3, storyPath := ["n1", "n2", "n3"],
      isActive := true, roundStartTime := 20, roundDurationHours := 24,
      testMode := false } rfl rfl
  exact ⟨rfl, h.1, h.2.1⟩

/-- A successful attempt ends the retry loop at once. -/
theorem retryLoop_success_step
    (exec : Nat → Option GameState → Except String ExecResult × Option GameState)
    (rd fuel attempt : Nat) (s : Option GameState) (res : ExecResult)
    (hr : (exec attempt s).1 = Except.ok res) (hs : res.success = true) :
    retryLoop exec rd (fuel + 1) attempt s =
      { result := res, attempts := 1, delays := [], finalState := (exec attempt s).2 } := by
  rw [retryLoop.eq_def]
  simp [hr, hs]

/-- A failing final attempt ends the retry loop with the exhaustion result. -/
theorem retryLoop_last_fail
    (exec : Nat → Option GameState → Except String ExecResult × Option GameState)
    (rd attempt : Nat) (s : Option GameState)
    (hfail : attemptFailed (exec attempt s).1 = true) :
    retryLoop exec rd 1 attempt s =
      { result := { success := false, error := some "All attempts failed" },
        attempts := 1, delays := [], finalState := (exec attempt s).2 } := by
  rcases hr : (exec attempt s).1 with e | res
  · rw [retryLoop.eq_def]
    simp [hr]
  · have hs : res.success = false := by
      rw [hr] at hfail
      simpa [attemptFailed] using hfail
    rw [retryLoop.eq_def]
    simp [hr, hs]

/-- A failing attempt with budget remaining waits the fixed delay and
retries with the state the attempt left behind. -/
theorem retryLoop_fail_step
    (exec : Nat → Option GameState → Except String ExecResult × Option GameState)
    (rd f attempt : Nat) (s : Option GameState)
    (hfail : attemptFailed (exec attempt s).1 = true) :
    retryLoop exec rd (f + 2) attempt s =
      { result := (retryLoop exec rd (f + 1) (attempt + 1) (exec attempt s).2).result,
        attempts := (retryLoop exec rd (f + 1) (attempt + 1) (exec attempt s).2).attempts + 1,
        delays := rd :: (retryLoop exec rd (f + 1) (attempt + 1) (exec attempt s).2).delays,
        finalState := (retryLoop exec rd (f + 1) (attempt + 1) (exec attempt s).2).finalState } := by
  rcases hr : (exec attempt s).1 with e | res
  · rw [retryLoop.eq_def]
    simp [hr]
  · have hs : res.success = false := by
      rw [hr] at hfail
      simpa [attemptFailed] using hfail
    rw [retryLoop.eq_def]
    simp [hr, hs]

/-- The retry loop never exceeds its attempt budget, makes at least one
attempt when the budget is positive, and waits the fixed delay exactly
between consecutive attempts. -/
theorem retryLoop_spec
    (exec : Nat → Option GameState → Except String ExecResult × Option GameState)
    (rd : Nat) :
    ∀ (fuel attempt : Nat) (s : Option GameState),
      (retryLoop exec rd fuel attempt s).attempts ≤ fuel ∧
      (1 ≤ fuel → 1 ≤ (retryLoop exec rd fuel attempt s).attempts) ∧
      (retryLoop exec rd fuel attempt s).delays =
        List.replicate ((retryLoop exec rd fuel attempt s).attempts - 1) rd
  | 0, attempt, s => by simp [retryLoop]
  | fuel + 1, attempt, s => by
      by_cases hfl : attemptFailed (exec attempt s).1 = true
      · cases fuel with
        | zero =>
            rw [retryLoop_last_fail exec rd attempt s hfl]
            exact ⟨by dsimp only; omega, fun _ => by dsimp only; omega, by dsimp only; rfl⟩
        | succ f =>
            obtain ⟨ih1, ih2, ih3⟩ :=
              retryLoop_spec exec rd (f + 1) (attempt + 1) (exec attempt s).2
            have hpos := ih2 (by omega)
            rw [retryLoop_fail_step exec rd f attempt s hfl]
            refine ⟨by dsimp only; omega, fun _ => by dsimp only; omega, ?_⟩
            dsimp only
            rw [ih3, Nat.add_sub_cancel]
            conv_rhs =>
              rw [show (retryLoop exec rd (f + 1) (attempt + 1) (exec attempt s).2).attempts =
                ((retryLoop exec rd (f + 1) (attempt + 1) (exec attempt s).2).attempts - 1) + 1
                from by omega]
            rw [List.replicate_succ]
      · have hok : ∃ res, (exec attempt s).1 = Except.ok res ∧ res.success = true := by
          rcases hr : (exec attempt s).1 with e | res
          · rw [hr] at hfl
            simp [attemptFailed] at hfl
          · rw [hr] at hfl
            exact ⟨res, rfl, by simpa [attemptFailed] using hfl⟩
        obtain ⟨res, hr, hs⟩ := hok
        rw [retryLoop_success_step exec rd fuel attempt s res hr hs]
        exact ⟨by dsimp only; omega, fun _ => by dsimp only; omega, by dsimp only; rfl⟩

/-- When every attempt fails (throws or returns an unsuccessful result), the
retry loop uses the whole budget. -/
theorem retryLoop_allFail
    (exec : Nat → Option GameState → Except String ExecResult × Option GameState)
    (rd : Nat) (hf : ∀ k s, attemptFailed (exec k s).1 = true) :
    ∀ (fuel attempt : Nat) (s : Option GameState),
      (retryLoop exec rd fuel attempt s).attempts = fuel
  | 0, attempt, s => by simp [retryLoop]
  | 1, attempt, s => by
      rw [retryLoop_last_fail exec rd attempt s (hf attempt s)]
  | fuel + 2, attempt, s => by
      have ih := retryLoop_allFail exec rd hf (fuel + 1) (attempt + 1) (exec attempt s).2
      rw [retryLoop_fail_step exec rd fuel attempt s (hf attempt s)]
      dsimp only
      omega

/-- C3 (amended): a firing is attempted at most the configured budget of
times with the fixed delay between consecutive attempts; the inactive-game
and round-mismatch early exits happen before the loop and are never
retried (zero attempts); and any attempt that throws *or returns an
unsuccessful result — including the no-winner outcome —* is retried, so a
firing that keeps failing uses the whole budget. -/
theorem retryPolicySpec
    (exec : Nat → Option GameState → Except String ExecResult × Option GameState)
    (mr rd er : Nat) (gs : Option GameState) :
    (handleRoundAdvancement exec mr rd er gs).attempts ≤ mr ∧
    (handleRoundAdvancement exec mr rd er gs).delays =
      List.replicate ((handleRoundAdvancement exec mr rd er gs).attempts - 1) rd ∧
    (gs = none → (handleRoundAdvancement exec mr rd er gs).attempts = 0) ∧
    (∀ g, gs = some g → ¬ (g.isActive = true ∧ g.roundNumber = er) →
      (handleRoundAdvancement exec mr rd er gs).attempts = 0) ∧
    ((∀ k s, attemptFailed (exec k s).1 = true) →
      ∀ g, gs = some g → g.isActive = true → g.roundNumber = er →
      (handleRoundAdvancement exec mr rd er gs).attempts = mr) := by
  cases gs with
  | none => simp [handleRoundAdvancement]
  | some g =>
      by_cases ha : g.isActive = true
      · by_cases hrn : g.roundNumber = er
        · have hred : handleRoundAdvancement exec mr rd er (some g) =
              retryLoop exec rd mr 1 (some g) := by
            simp [handleRoundAdvancement, ha, hrn]
          obtain ⟨h1, _, h3⟩ := retryLoop_spec exec rd mr 1 (some g)
          rw [hred]
          refine ⟨h1, h3, by simp, ?_, ?_⟩
          · intro g' hg' hcon
            obtain rfl : g = g' := by injection hg'
            exact absurd ⟨ha, hrn⟩ hcon
          · intro hf g' hg' _ _
            exact retryLoop_allFail exec rd hf mr 1 (some g)
        · have hred : handleRoundAdvancement exec mr rd er (some g) =
              { result := { success := false, error := some "Round mismatch" },
                attempts := 0, delays := [], finalState := some g } := by
            simp [handleRoundAdvancement, ha, hrn]
          rw [hred]
          refine ⟨by simp, by simp, by simp, fun g' hg' hcon => rfl, ?_⟩
          intro hf g' hg' hact hround
          obtain rfl : g = g' := by injection hg'
          exact absurd hround hrn
      · have hred : handleRoundAdvancement exec mr rd er (some g) =
            { result := { success := false, error := some "Game is no longer active" },
              attempts := 0, delays := [], finalState := some g } := by
          simp [handleRoundAdvancement, ha]
        rw [hred]
        refine ⟨by simp, by simp, by simp, fun g' hg' hcon => rfl, ?_⟩
        intro hf g' hg' hact _
        obtain rfl : g = g' := by injection hg'
        exact absurd hact ha

/-- C3 witness: the always-failing no-winner firing, with budget 3 and delay
5000 ms, stays within budget, waits the fixed delay between consecutive
attempts, and uses all 3 attempts. -/
theorem retryPolicySpecWitness :
    (handleRoundAdvancement (fun _ s => executeRoundAdvancement envNoWinner s 50)
      3 5000 1 (some gsEx)).attempts ≤ 3 ∧
    (handleRoundAdvancement (fun _ s => executeRoundAdvancement envNoWinner s 50)
      3 5000 1 (some gsEx)).delays =
      List.replicate ((handleRoundAdvancement (fun _ s => executeRoundAdvancement envNoWinner s 50)
        3 5000 1 (some gsEx)).attempts - 1) 5000 ∧
    (handleRoundAdvancement (fun _ s => executeRoundAdvancement envNoWinner s 50)
      3 5000 1 (some gsEx)).attempts = 3 := by
  have h := retryPolicySpec (fun _ s => executeRoundAdvancement envNoWinner s 50)
    3 5000 1 (some gsEx)
  exact ⟨h.1, h.2.1, h.2.2.2.2 (fun k s => rfl) gsEx rfl rfl rfl⟩

/-- C6 (amended): the story engine's reference validation treats unreached
node ids as warnings only — its fatal verdict holds exactly when the start
node exists, no choice reference dangles and an end node exists, with
reachability playing no part in it — while `SettingsHandler.validateStoryJson`
reports unreached non-start node ids as a fatal error entry, so validation
fails there whenever such nodes exist. -/
theorem unreachableNodesWarningVsError (s : Story) :
    ((validateStoryReferences s).1 = Except.ok () ↔
      (s.getNode s.startNodeId ≠ none ∧ firstDanglingRef s = none ∧
        (s.nodes.filter (fun p => decide (p.2.isEnd = some true))).isEmpty = false)) ∧
    (unreachableNodesJson s ≠ [] →
      unreachableNodesErr s ∈ (validateStoryJson s).errors ∧
      (validateStoryJson s).isValid = false) := by
  constructor
  · unfold validateStoryReferences
    split
    · rename_i hstart
      simp [hstart]
    · rename_i hstart
      split
      · rename_i nodeId c hd
        simp [hd]
      · rename_i hd
        split
        · rename_i hend
          simp [hstart, hd, hend]
        · rename_i hend
          simp [hstart, hd, hend]
  · intro hne
    have hemp : (unreachableNodesJson s).isEmpty = false := by
      cases h : unreachableNodesJson s with
      | nil => exact absurd h hne
      | cons a l => rfl
    have hmem : unreachableNodesErr s ∈ (validateStoryJson s).errors := by
      simp only [validateStoryJson]
      simp [hemp]
    refine ⟨hmem, ?_⟩
    have hnn := List.ne_nil_of_mem hmem
    rw [show (validateStoryJson s).isValid = (validateStoryJson s).errors.isEmpty from rfl]
    cases herr : (validateStoryJson s).errors with
    | nil => exact absurd herr hnn
    | cons a l => rfl

/-- C6 witness: the unreachable-node story passes the engine's fatal checks
but fails `validateStoryJson` with the unreachable-nodes error recorded. -/
theorem unreachableNodesWarningVsErrorWitness :
    (validateStoryReferences storyU).1 = Except.ok () ∧
    unreachableNodesErr storyU ∈ (validateStoryJson storyU).errors ∧
    (validateStoryJson storyU).isValid = false := by
  have h := unreachableNodesWarningVsError storyU
  exact ⟨h.1.mpr ⟨by decide, rfl, rfl⟩, (h.2 (by decide)).1, (h.2 (by decide)).2⟩

/-- C7 (amended): `SettingsHandler.validateStoryJson` accumulates one error
entry per defect into a single list with no fail-fast — a story containing
both a node with a missing title and a node with a dangling choice reference
gets both errors reported together and is invalid — whereas the story
engine's validation throws at the first defect found and reports only that
one. -/
theorem settingsValidationAccumulates (s : Story)
    (p q : String × StoryNode) (i : Nat) (c : Choice)
    (hp : p ∈ s.nodes) (hpt : p.2.title = "")
    (hq : q ∈ s.nodes) (hqc : (i, c) ∈ (q.2.choices.getD []).enum)
    (hne : c.nextNodeId ≠ "")
    (hdangle : (s.nodes.map (fun x => x.1)).contains c.nextNodeId = false) :
    nodeTitleErr p.1 ∈ (validateStoryJson s).errors ∧
    choiceRefErr q.1 i c.nextNodeId ∈ (validateStoryJson s).errors ∧
    (validateStoryJson s).isValid = false := by
  have hlift : ∀ x, x ∈ s.nodes.flatMap
      (fun r => validateStoryNodeJson r.1 (s.nodes.map (fun y => y.1)) r.2) →
      x ∈ (validateStoryJson s).errors := by
    intro x hx
    simp only [validateStoryJson]
    exact List.mem_append.mpr (Or.inl (List.mem_append.mpr (Or.inr hx)))
  have h1 : nodeTitleErr p.1 ∈ s.nodes.flatMap
      (fun r => validateStoryNodeJson r.1 (s.nodes.map (fun y => y.1)) r.2) := by
    refine List.mem_flatMap.mpr ⟨p, hp, ?_⟩
    unfold validateStoryNodeJson
    refine List.mem_append.mpr (Or.inl ?_)
    refine List.mem_append.mpr (Or.inl ?_)
    refine List.mem_append.mpr (Or.inl ?_)
    refine List.mem_append.mpr (Or.inl ?_)
    refine List.mem_append.mpr (Or.inr ?_)
    simp [hpt]
  have h2 : choiceRefErr q.1 i c.nextNodeId ∈ s.nodes.flatMap
      (fun r => validateStoryNodeJson r.1 (s.nodes.map (fun y => y.1)) r.2) := by
    refine List.mem_flatMap.mpr ⟨q, hq, ?_⟩
    unfold validateStoryNodeJson
    refine List.mem_append.mpr (Or.inl ?_)
    refine List.mem_append.mpr (Or.inl ?_)
    refine List.mem_append.mpr (Or.inr ?_)
    refine List.mem_flatMap.mpr ⟨(i, c), hqc, ?_⟩
    have hcond : ¬ ((s.nodes.map (fun y => y.1)).contains c.nextNodeId = true) := by
      rw [hdangle]
      simp
    unfold validateChoiceJson
    refine List.mem_append.mpr (Or.inr ?_)
    rw [if_neg hne, if_neg hcond]
    simp
  have hm1 := hlift _ h1
  have hm2 := hlift _ h2
  refine ⟨hm1, hm2, ?_⟩
  have hnn := List.ne_nil_of_mem hm1
  rw [show (validateStoryJson s).isValid = (validateStoryJson s).errors.isEmpty from rfl]
  cases herr : (validateStoryJson s).errors with
  | nil => exact absurd herr hnn
  | cons a l => rfl

/-- C7 witness: on the two-defect story, both the missing-title error and the
dangling-reference error appear in the accumulated list and the story is
invalid. -/
theorem settingsValidationAccumulatesWitness :
    nodeTitleErr "a" ∈ (validateStoryJson storyD).errors ∧
    choiceRefErr "b" 0 "zzz" ∈ (validateStoryJson storyD).errors ∧
    (validateStoryJson storyD).isValid = false := by
  exact settingsValidationAccumulates storyD ("a", nodeDa) ("b", nodeDb) 0
    { id := "cb", text := "y", nextNodeId := "zzz" }
    (by decide) rfl (by decide) (by decide) (by decide) rfl

end SubQuest
